import Mathlib

/-!
Shallow embedding of the retail-store FastAPI service (src/main.py,
src/models.py, src/celery_worker.py).

The relational store is modelled as a list of rows plus the next
auto-increment primary key.  Each HTTP handler becomes a Lean function from
the store (and the parsed request) to the new store together with an
`Except` result: `Except.error` corresponds to an `HTTPException` (or a
pydantic validation error raised before the handler body runs), in which
case the session is closed without `commit()` and the store component is
returned unchanged.  `float` prices are modelled as rationals, `date`
columns as their ISO `YYYY-MM-DD` strings (lexicographic order on such
strings agrees with calendar order).
-/

namespace RetailStore

/-- Row of the `pricing_feeds` table (class `PricingFeed` in src/models.py). -/
structure PricingFeed where
  id : Nat
  store_id : String
  sku : String
  product_name : String
  price : Rat
  date : String
deriving Repr, DecidableEq

/-- The relational store: the committed rows plus the next value of the
auto-increment primary key. -/
structure Store where
  rows : List PricingFeed
  nextId : Nat
deriving Repr, DecidableEq

/-- Body of `POST /api/search/` (class `SearchRequest` in src/models.py):
every field is optional and defaults to `None`. -/
structure SearchRequest where
  store_id : Option String := none
  search_sku : Option String := none
  search_product_name : Option String := none
  search_price_from : Option Rat := none
  search_price_to : Option Rat := none
  search_date_from : Option String := none
  search_date_to : Option String := none
deriving Repr, DecidableEq

/-- Body of `POST /api/pricing_feeds/` (class `PricingFeedCreate`). -/
structure PricingFeedCreate where
  store_id : String
  sku : String
  product_name : String
  price : Rat
  date : String
deriving Repr, DecidableEq

/-- Body of `PUT /api/pricing_feeds/{id}` (class `PricingFeedUpdate`):
`none` models a field omitted from the request body.  Unlike
`UpdateRequest` and `SearchRequest`, the source class declares its five
`Optional[...]` fields with no `= None` defaults (src/models.py lines
100–113), so under pydantic v2 (the `field_validator` import) every field
is required-but-nullable: a body omitting any field is rejected with a
422 validation error before the handler runs, which
`update_pricing_feed` models.  A supplied field is modeled by `some v`
with a non-null value; explicit JSON `null` values are not distinguished
(no claim depends on them: a null `date` crashes the validator, a null
elsewhere writes NULL). -/
structure PricingFeedUpdate where
  store_id : Option String
  sku : Option String
  product_name : Option String
  price : Option Rat
  date : Option String
deriving Repr, DecidableEq

/-- One element of the `POST /api/pricing_feeds/bulk_update` body
(class `UpdateRequest`): the mandatory `id` plus optional fields. -/
structure UpdateRequest where
  id : Nat
  store_id : Option String := none
  sku : Option String := none
  product_name : Option String := none
  price : Option Rat := none
  date : Option String := none
deriving Repr, DecidableEq

/-- The paginated envelope returned by the search and list endpoints
(class `PaginatedPricingFeedResponse`). -/
structure PaginatedResponse where
  total_count : Nat
  page : Nat
  size : Nat
  total_pages : Nat
  results : List PricingFeed
deriving Repr, DecidableEq

/-- One data row of an uploaded CSV file, keyed by the headers
`Store ID`, `SKU`, `Product Name`, `Price`, `Date`; all cells are raw
strings as produced by `csv.DictReader`. -/
structure CsvRow where
  store_id : String
  sku : String
  product_name : String
  price : String
  date : String
deriving Repr, DecidableEq

/-- Python truthiness of an `Optional[str]`: `None` and the empty string
are falsy, every other string is truthy.  The handlers guard the string
filters with `if search.store_id:` etc. -/
def truthy : Option String → Bool
  | none => false
  | some s => !(s == "")

/-- Does `pat` occur at the head of `hay`? -/
def segAt : List Char → List Char → Bool
  | [], _ => true
  | _ :: _, [] => false
  | p :: ps, h :: hs => (p == h) && segAt ps hs

/-- Does `pat` occur contiguously anywhere in the character list? -/
def containsSeg (pat : List Char) : List Char → Bool
  | [] => pat.isEmpty
  | h :: hs => segAt pat (h :: hs) || containsSeg pat hs

/-- `likeContains hay pat` models the SQL predicate
`hay LIKE '%pat%'` for a pattern `pat` free of the wildcards `%` and `_`:
it holds when `pat` is a contiguous substring of `hay`. -/
def likeContains (hay pat : String) : Bool :=
  containsSeg pat.data hay.data

/-- The comparator of `ORDER BY id`: non-decreasing record id. -/
def idLe (a b : PricingFeed) : Prop := a.id ≤ b.id

instance : DecidableRel idLe := fun a b => Nat.decLe a.id b.id

instance : IsTotal PricingFeed idLe := ⟨fun a b => Nat.le_total a.id b.id⟩

instance : IsTrans PricingFeed idLe := ⟨fun _ _ _ h1 h2 => Nat.le_trans h1 h2⟩

/-- The filter-building prefix of `search_records` (src/main.py lines
83–111): each supplied criterion adds one `query.filter(...)` stage.
String and date criteria are guarded by Python truthiness, the price
criteria by `is not None`; a `search_price_to` (resp. `search_date_to`)
without the corresponding lower bound reaches the final branch and adds
no stage. -/
def applyFilters (search : SearchRequest) (rows : List PricingFeed) : List PricingFeed :=
  let query := rows
  let query := if truthy search.store_id then
      query.filter (fun r => r.store_id == search.store_id.getD "")
    else query
  let query := if truthy search.search_sku then
      query.filter (fun r => likeContains r.sku.toLower ((search.search_sku.getD "").toLower))
    else query
  let query := if truthy search.search_product_name then
      query.filter (fun r => likeContains r.product_name.toLower ((search.search_product_name.getD "").toLower))
    else query
  let query := match search.search_price_from, search.search_price_to with
    | some lo, some hi => query.filter (fun r => decide (lo ≤ r.price) && decide (r.price ≤ hi))
    | some lo, none => query.filter (fun r => decide (lo ≤ r.price))
    | none, _ => query
  let query := if truthy search.search_date_from && truthy search.search_date_to then
      query.filter (fun r =>
        decide (search.search_date_from.getD "" ≤ r.date) && decide (r.date ≤ search.search_date_to.getD ""))
    else if truthy search.search_date_from then
      query.filter (fun r => decide (search.search_date_from.getD "" ≤ r.date))
    else query
  query

/-- Handler of `POST /api/search/` (src/main.py lines 73–127): build the
filtered query, order it by `id`, count it, then return the page
`OFFSET (page-1)*size LIMIT size` inside the envelope. -/
def search_records (st : Store) (search : SearchRequest) (page size : Nat) : PaginatedResponse :=
  let query := applyFilters search st.rows
  let sorted := query.insertionSort idLe
  let total_count := sorted.length
  let skip := (page - 1) * size
  { total_count := total_count
    page := page
    size := size
    total_pages := total_count / size + (if total_count % size > 0 then 1 else 0)
    results := (sorted.drop skip).take size }

/-- Handler of `GET /api/pricing_feeds/` (src/main.py lines 167–195):
optional truthy `store_id` filter, then the same order-count-paginate
code as the search handler. -/
def get_pricing_feeds (st : Store) (page size : Nat) (store_id : Option String) : PaginatedResponse :=
  let query := st.rows
  let query := if truthy store_id then
      query.filter (fun r => r.store_id == store_id.getD "")
    else query
  let sorted := query.insertionSort idLe
  let total_count := sorted.length
  let skip := (page - 1) * size
  { total_count := total_count
    page := page
    size := size
    total_pages := total_count / size + (if total_count % size > 0 then 1 else 0)
    results := (sorted.drop skip).take size }

/-- Handler of `GET /api/pricing_feeds/{feed_id}` (src/main.py lines
199–204): `query.filter(id == feed_id).first()`; `none` corresponds to
the 404 response. -/
def get_pricing_feed (st : Store) (feed_id : Nat) : Option PricingFeed :=
  st.rows.find? (fun r => r.id == feed_id)

/-- Number of days in a month of the Gregorian calendar, as used by
`datetime`'s day-of-month check. -/
def daysInMonth (y m : Nat) : Nat :=
  if m == 2 then
    if (y % 4 == 0 && !(y % 100 == 0)) || y % 400 == 0 then 29 else 28
  else if m == 4 || m == 6 || m == 9 || m == 11 then 30 else 31

/-- Numeric value of a digit list, most significant digit first. -/
def digitsVal (l : List Char) : Nat :=
  l.foldl (fun acc c => acc * 10 + (c.toNat - 48)) 0

/-- Models `datetime.strptime(value, "%Y-%m-%d")` succeeding: a four-digit
year, a one- or two-digit month and day, and the resulting numbers must
form a valid calendar date (`datetime` requires `1 ≤ year`,
`1 ≤ month ≤ 12`, `1 ≤ day ≤` days in that month). -/
def isValidDate (s : String) : Bool :=
  match s.data.splitOn '-' with
  | [ys, ms, ds] =>
    ys.length == 4 && ys.all Char.isDigit &&
    (decide (1 ≤ ms.length) && decide (ms.length ≤ 2)) && ms.all Char.isDigit &&
    (decide (1 ≤ ds.length) && decide (ds.length ≤ 2)) && ds.all Char.isDigit &&
    (decide (1 ≤ digitsVal ys) && decide (1 ≤ digitsVal ms) && decide (digitsVal ms ≤ 12) &&
     decide (1 ≤ digitsVal ds) && decide (digitsVal ds ≤ daysInMonth (digitsVal ys) (digitsVal ms)))
  | _ => false

/-- Handler of `POST /api/pricing_feeds/` (src/main.py lines 157–163).
The pydantic validator of `PricingFeedCreate.date` runs while the request
body is parsed, before the handler body: an invalid date is rejected with
no mutation.  Otherwise the row is inserted with the next primary key and
returned (`db.refresh` reloads the assigned id). -/
def create_pricing_feed (st : Store) (feed : PricingFeedCreate) : Store × Except String PricingFeed :=
  if isValidDate feed.date then
    let db_feed : PricingFeed :=
      { id := st.nextId, store_id := feed.store_id, sku := feed.sku,
        product_name := feed.product_name, price := feed.price, date := feed.date }
    ({ rows := st.rows ++ [db_feed], nextId := st.nextId + 1 }, .ok db_feed)
  else
    (st, .error "Invalid date format. Expected YYYY-MM-DD")

/-- The loop `for key, value in feed.dict(exclude_unset=True).items():
setattr(db_feed, key, value)`: every supplied field overwrites the stored
one, every omitted field is left alone. -/
def applyUpdate (r : PricingFeed) (u : PricingFeedUpdate) : PricingFeed :=
  { r with
    store_id := u.store_id.getD r.store_id
    sku := u.sku.getD r.sku
    product_name := u.product_name.getD r.product_name
    price := u.price.getD r.price
    date := u.date.getD r.date }

/-- Same `setattr` loop for one element of a bulk-update body. -/
def applyUpdateReq (r : PricingFeed) (u : UpdateRequest) : PricingFeed :=
  { r with
    store_id := u.store_id.getD r.store_id
    sku := u.sku.getD r.sku
    product_name := u.product_name.getD r.product_name
    price := u.price.getD r.price
    date := u.date.getD r.date }

/-- In-place mutation of the first row whose `id` matches, as done through
the ORM identity map; `none` when no row matches
(`query.filter(id == fid).first()` returned `None`). -/
def mutateFirst : List PricingFeed → Nat → (PricingFeed → PricingFeed) → Option (List PricingFeed × PricingFeed)
  | [], _, _ => none
  | r :: rs, fid, f =>
    if r.id == fid then some (f r :: rs, f r)
    else (mutateFirst rs fid f).map (fun p => (r :: p.1, p.2))

/-- Pydantic validation of an optional `date` field: absent is fine, a
supplied value must parse as `YYYY-MM-DD`. -/
def validUpdateDate : Option String → Bool
  | none => true
  | some s => isValidDate s

/-- Handler of `PUT /api/pricing_feeds/{feed_id}` (src/main.py lines
208–219) together with the pydantic validation of its body, which runs
before the handler: a supplied `date` must parse as `YYYY-MM-DD`, and —
because `PricingFeedUpdate` declares no field defaults — pydantic v2
requires all five fields, so a body omitting any field is answered with a
422 validation error and no mutation.  (A real 422 aggregates all field
errors; the model reports the date error first.)  Only when the body
passes validation is the row looked up (404 when absent), the `setattr`
loop run — `dict(exclude_unset=True)` then contains every field, so all
five columns are written — and the session committed. -/
def update_pricing_feed (st : Store) (feed_id : Nat) (feed : PricingFeedUpdate) :
    Store × Except String PricingFeed :=
  if validUpdateDate feed.date then
    if feed.store_id.isSome && feed.sku.isSome && feed.product_name.isSome
        && feed.price.isSome && feed.date.isSome then
      match mutateFirst st.rows feed_id (fun r => applyUpdate r feed) with
      | none => (st, .error "Pricing feed not found")
      | some (rows2, db_feed) => ({ st with rows := rows2 }, .ok db_feed)
    else
      (st, .error "Field required")
  else
    (st, .error "Invalid date format. Expected YYYY-MM-DD")

/-- The loop of `bulk_update_pricing_feeds` over the pending session
state: each update is applied to the first row with the matching id; a
missing id raises the 404 `HTTPException` out of the loop. -/
def bulkUpdateGo : List PricingFeed → List UpdateRequest → Except String (List PricingFeed)
  | rows, [] => .ok rows
  | rows, u :: us =>
    match mutateFirst rows u.id (fun r => applyUpdateReq r u) with
    | none => .error ("Pricing feed with ID " ++ toString u.id ++ " not found")
    | some (rows2, _) => bulkUpdateGo rows2 us

/-- Handler of `POST /api/pricing_feeds/bulk_update` (src/main.py lines
130–153): `db.commit()` runs only after every update found its row, so a
404 raised mid-loop closes the session with all pending `setattr`
mutations rolled back and the store unchanged. -/
def bulk_update_pricing_feeds (st : Store) (updates : List UpdateRequest) :
    Store × Except String String :=
  match bulkUpdateGo st.rows updates with
  | .error e => (st, .error e)
  | .ok rows2 =>
    ({ st with rows := rows2 },
     .ok (toString updates.length ++ " records updated successfully"))

/-- Handler of `DELETE /api/pricing_feeds/{feed_id}` (src/main.py lines
223–230). -/
def delete_pricing_feed (st : Store) (feed_id : Nat) : Store × Except String String :=
  match st.rows.find? (fun r => r.id == feed_id) with
  | none => (st, .error "Pricing feed not found")
  | some _ =>
    ({ st with rows := st.rows.filter (fun r => !(r.id == feed_id)) },
     .ok "Pricing feed deleted successfully")

/-- Mantissa of a float literal: digits with an optional decimal point,
at least one digit overall (`"12"`, `"12."`, `".5"`, `"1.5"`). -/
def parseMantissa (cs : List Char) : Option Rat :=
  let p := cs.span Char.isDigit
  match p.2 with
  | [] => if p.1.isEmpty then none else some (digitsVal p.1)
  | '.' :: fr =>
    if fr.all Char.isDigit && !(p.1.isEmpty && fr.isEmpty) then
      some ((digitsVal p.1 : Rat) + (digitsVal fr : Rat) / (10 : Rat) ^ fr.length)
    else none
  | _ => none

/-- Exponent part of a float literal: optional sign then digits. -/
def parseExp (cs : List Char) : Option Int :=
  let q : Int × List Char :=
    match cs with
    | '+' :: r => (1, r)
    | '-' :: r => (-1, r)
    | r => (1, r)
  if q.2.isEmpty || !q.2.all Char.isDigit then none
  else some (q.1 * (digitsVal q.2 : Int))

/-- Unsigned float literal: mantissa with an optional `e`/`E` exponent. -/
def parseUnsigned (cs : List Char) : Option Rat :=
  let p := cs.span (fun c => !(c == 'e' || c == 'E'))
  match p.2 with
  | [] => parseMantissa p.1
  | _ :: ecs => do
    let m ← parseMantissa p.1
    let e ← parseExp ecs
    pure (m * (10 : Rat) ^ e)

/-- Models Python `float(s)` on decimal literals: an optional sign, then
digits with an optional decimal point and an optional exponent.  `none`
models `float` raising `ValueError`.  (Python additionally strips
surrounding whitespace and accepts `inf`/`nan` spellings and digit-group
underscores; such inputs are rejected here, which only makes the modelled
parse fail more often.) -/
def parsePrice (s : String) : Option Rat :=
  match s.data with
  | [] => none
  | '+' :: r => parseUnsigned r
  | '-' :: r => (parseUnsigned r).map (fun v => -v)
  | r => parseUnsigned r

/-- A record built from a CSV row before the store assigns it an id
(`PricingFeed(store_id=..., ..., price=float(...), date=...)` in
src/celery_worker.py). -/
structure NewFeed where
  store_id : String
  sku : String
  product_name : String
  price : Rat
  date : String
deriving Repr, DecidableEq

/-- One iteration of the worker loop body (src/celery_worker.py lines
19–28): every cell is mapped verbatim except `Price`, which goes through
`float(...)` and is the only cell that can raise. -/
def parseRow (row : CsvRow) : Option NewFeed :=
  (parsePrice row.price).map (fun p =>
    { store_id := row.store_id, sku := row.sku,
      product_name := row.product_name, price := p, date := row.date })

/-- The whole `for row in reader:` loop: each row is parsed in order and
added to the session; the first row whose `Price` cell fails `float(...)`
raises, abandoning the loop and every pending record. -/
def parseRows : List CsvRow → Option (List NewFeed)
  | [] => some []
  | r :: rs =>
    match parseRow r, parseRows rs with
    | some n, some ns => some (n :: ns)
    | _, _ => none

/-- `db.commit()` of the added records: the store assigns consecutive
primary keys. -/
def commitNew : Store → List NewFeed → Store
  | st, [] => st
  | st, n :: ns =>
    commitNew
      { rows := st.rows ++ [{ id := st.nextId, store_id := n.store_id, sku := n.sku,
                              product_name := n.product_name, price := n.price, date := n.date }],
        nextId := st.nextId + 1 } ns

/-- The Celery task `process_csv_file` (src/celery_worker.py lines
13–31): parse every row, adding each record to the session, and commit
once at end of file.  If any `float(...)` raises, the exception escapes
the task, `finally: db.close()` discards the uncommitted session, and the
store is unchanged (`Except.error` marks the FAILURE task state). -/
def process_csv_file (st : Store) (rows : List CsvRow) : Store × Except String Unit :=
  match parseRows rows with
  | none => (st, .error "could not convert string to float")
  | some news => (commitNew st news, .ok ())

/-- The predicate of claim C1, written as one conjunction: a record is in
the result set iff it satisfies every supplied criterion — exact
`store_id`, case-insensitive substring `sku` and `product_name`,
inclusive price range (lower bound alone also effective), inclusive date
range (lower bound alone also effective); an unsupplied criterion
constrains nothing. -/
def matchesSearch (search : SearchRequest) (r : PricingFeed) : Bool :=
  ((((if truthy search.store_id then r.store_id == search.store_id.getD "" else true) &&
    (if truthy search.search_sku then
        likeContains r.sku.toLower ((search.search_sku.getD "").toLower) else true)) &&
    (if truthy search.search_product_name then
        likeContains r.product_name.toLower ((search.search_product_name.getD "").toLower) else true)) &&
    (match search.search_price_from, search.search_price_to with
      | some lo, some hi => decide (lo ≤ r.price) && decide (r.price ≤ hi)
      | some lo, none => decide (lo ≤ r.price)
      | none, _ => true)) &&
    (if truthy search.search_date_from && truthy search.search_date_to then
        decide (search.search_date_from.getD "" ≤ r.date) && decide (r.date ≤ search.search_date_to.getD "")
      else if truthy search.search_date_from then
        decide (search.search_date_from.getD "" ≤ r.date)
      else true)

/-! ### Helper lemmas -/

theorem parseRows_eq_none {rows : List CsvRow}
    (h : ∃ row ∈ rows, parsePrice row.price = none) :
    parseRows rows = none := by
  induction rows with
  | nil => simp at h
  | cons r rs ih =>
    obtain ⟨row, hmem, hnone⟩ := h
    rcases List.mem_cons.mp hmem with h1 | h2
    · subst h1
      simp [parseRows, parseRow, hnone]
    · simp [parseRows, ih ⟨row, h2, hnone⟩]

theorem mutateFirst_eq_none {rows : List PricingFeed} {fid : Nat} {f : PricingFeed → PricingFeed} :
    mutateFirst rows fid f = none ↔ ∀ r ∈ rows, r.id ≠ fid := by
  induction rows with
  | nil => simp [mutateFirst]
  | cons r rs ih =>
    by_cases h : r.id = fid
    · simp [mutateFirst, h]
    · simp [mutateFirst, h, ih]

theorem mutateFirst_some_ids {rows rows2 : List PricingFeed} {fid : Nat}
    {f : PricingFeed → PricingFeed} {rec : PricingFeed}
    (hf : ∀ r, (f r).id = r.id)
    (h : mutateFirst rows fid f = some (rows2, rec)) :
    rows2.map (fun r => r.id) = rows.map (fun r => r.id) := by
  induction rows generalizing rows2 rec with
  | nil => simp [mutateFirst] at h
  | cons r rs ih =>
    rw [mutateFirst] at h
    by_cases hid : r.id = fid
    · rw [if_pos (by simpa using hid)] at h
      simp only [Option.some.injEq, Prod.mk.injEq] at h
      obtain ⟨h1, _⟩ := h
      subst h1
      simp [hf]
    · rw [if_neg (by simpa using hid)] at h
      cases hm : mutateFirst rs fid f with
      | none => rw [hm] at h; simp at h
      | some p =>
        obtain ⟨rs2, rec2⟩ := p
        rw [hm] at h
        simp only [Option.map_some', Option.some.injEq, Prod.mk.injEq] at h
        obtain ⟨h1, h2⟩ := h
        subst h1
        subst h2
        simp [ih hm]

theorem parseRows_dates {rows : List CsvRow} {news : List NewFeed}
    (h : parseRows rows = some news) :
    news.map (fun n => n.date) = rows.map (fun r => r.date) := by
  induction rows generalizing news with
  | nil =>
    rw [parseRows] at h
    obtain rfl := Option.some.injEq .. ▸ h.symm
    rfl
  | cons r rs ih =>
    rw [parseRows] at h
    cases hp : parseRow r with
    | none => rw [hp] at h; simp at h
    | some n =>
      cases hps : parseRows rs with
      | none => rw [hp, hps] at h; simp at h
      | some ns =>
        rw [hp, hps] at h
        simp only [Option.some.injEq] at h
        subst h
        have hd : n.date = r.date := by
          rw [parseRow] at hp
          cases hpp : parsePrice r.price with
          | none => rw [hpp] at hp; simp at hp
          | some p =>
            rw [hpp] at hp
            simp only [Option.map_some', Option.some.injEq] at hp
            rw [← hp]
        simp [hd, ih hps]

theorem parseRows_of_isSome {rows : List CsvRow}
    (h : ∀ row ∈ rows, (parsePrice row.price).isSome) :
    ∃ news, parseRows rows = some news := by
  induction rows with
  | nil => exact ⟨[], rfl⟩
  | cons r rs ih =>
    obtain ⟨p, hp⟩ := Option.isSome_iff_exists.mp (h r (by simp))
    obtain ⟨ns, hns⟩ := ih (fun row hr => h row (by simp [hr]))
    have hr : parseRow r = some
        { store_id := r.store_id, sku := r.sku, product_name := r.product_name,
          price := p, date := r.date } := by
      rw [parseRow, hp]
      rfl
    exact ⟨_, by rw [parseRows, hr, hns]⟩

theorem commitNew_dates : ∀ (news : List NewFeed) (st : Store),
    (commitNew st news).rows.map (fun r => r.date)
      = st.rows.map (fun r => r.date) ++ news.map (fun n => n.date) := by
  intro news
  induction news with
  | nil => intro st; simp [commitNew]
  | cons n ns ih =>
    intro st
    rw [commitNew, ih]
    simp

theorem filter_if_absent (c : Bool) (p : PricingFeed → Bool) (l : List PricingFeed) :
    (if c then l.filter p else l) = l.filter (fun r => if c then p r else true) := by
  cases c <;> simp

theorem filter_if_chain (c1 c2 : Bool) (p q : PricingFeed → Bool) (l : List PricingFeed) :
    (if c1 then l.filter p else if c2 then l.filter q else l)
      = l.filter (fun r => if c1 then p r else if c2 then q r else true) := by
  cases c1 <;> cases c2 <;> simp

theorem applyFilters_eq_filter (s : SearchRequest) (rows : List PricingFeed) :
    applyFilters s rows = rows.filter (matchesSearch s) := by
  obtain ⟨sid, sku, pn, pf, pt, df, dt⟩ := s
  rcases pf with _ | lo <;> rcases pt with _ | hi <;>
  · simp only [applyFilters, matchesSearch]
    rw [filter_if_absent, filter_if_absent, filter_if_absent, filter_if_chain]
    simp only [List.filter_filter]
    apply List.filter_congr
    intro r hr
    simp [matchesSearch, Bool.and_assoc, Bool.and_comm, Bool.and_left_comm]

theorem ceil_pages (tc size : Nat) (h : 1 ≤ size) :
    tc / size + (if tc % size > 0 then 1 else 0) = (tc + size - 1) / size := by
  have hpos : 0 < size := h
  have hdm := Nat.div_add_mod tc size
  have hlt := Nat.mod_lt tc hpos
  by_cases hr : tc % size = 0
  · rw [if_neg (by omega)]
    have h2 : tc + size - 1 = size * (tc / size) + (size - 1) := by omega
    rw [h2, Nat.mul_add_div hpos, Nat.div_eq_of_lt (show size - 1 < size by omega)]
  · rw [if_pos (by omega)]
    have hx : size * (tc / size + 1) = size * (tc / size) + size := by ring
    have h2 : tc + size - 1 = size * (tc / size + 1) + (tc % size - 1) := by omega
    rw [h2, Nat.mul_add_div hpos, Nat.div_eq_of_lt (show tc % size - 1 < size by omega)]

theorem count_le_pages_mul (tc size : Nat) (h : 1 ≤ size) :
    tc ≤ (tc / size + (if tc % size > 0 then 1 else 0)) * size := by
  have hpos : 0 < size := h
  have hdm := Nat.div_add_mod tc size
  have hlt := Nat.mod_lt tc hpos
  by_cases hr : tc % size = 0
  · rw [if_neg (by omega), Nat.add_zero, Nat.mul_comm]
    omega
  · rw [if_pos (by omega), Nat.add_mul, Nat.one_mul, Nat.mul_comm]
    omega

theorem envelope_facts (l : List PricingFeed) (page size : Nat) (hsize : 1 ≤ size) :
    (l.length / size + (if l.length % size > 0 then 1 else 0) = (l.length + size - 1) / size)
    ∧ (l.length = 0 → l.length / size + (if l.length % size > 0 then 1 else 0) = 0)
    ∧ (page > l.length / size + (if l.length % size > 0 then 1 else 0) →
        (l.drop ((page - 1) * size)).take size = []) := by
  refine ⟨ceil_pages l.length size hsize, ?_, ?_⟩
  · intro h0
    simp [h0]
  · intro hgt
    have h1 : l.length ≤ (l.length / size + (if l.length % size > 0 then 1 else 0)) * size :=
      count_le_pages_mul l.length size hsize
    have h2 : (l.length / size + (if l.length % size > 0 then 1 else 0)) * size
        ≤ (page - 1) * size :=
      Nat.mul_le_mul_right size (by omega)
    rw [List.drop_eq_nil_of_le (Nat.le_trans h1 h2), List.take_nil]

end RetailStore

namespace RetailStore

/-- C1: for every store and every filter combination, the search response
has `total_count` equal to the number of stored records satisfying the
conjunction of all supplied predicates, a `results` list of length at
most `size`, and `results` sorted non-decreasing by `id`. -/
theorem search_response_envelope (st : Store) (s : SearchRequest) (page size : Nat) :
    (search_records st s page size).total_count
        = (st.rows.filter (matchesSearch s)).length
    ∧ (search_records st s page size).results.length ≤ size
    ∧ (search_records st s page size).results.Sorted idLe := by
  refine ⟨?_, ?_, ?_⟩
  · show ((applyFilters s st.rows).insertionSort idLe).length = _
    rw [List.length_insertionSort, applyFilters_eq_filter]
  · show ((((applyFilters s st.rows).insertionSort idLe).drop
        ((page - 1) * size)).take size).length ≤ size
    exact List.length_take_le _ _
  · show List.Sorted idLe ((((applyFilters s st.rows).insertionSort idLe).drop
        ((page - 1) * size)).take size)
    exact List.Pairwise.sublist ((List.take_sublist _ _).trans (List.drop_sublist _ _))
      (List.sorted_insertionSort idLe (applyFilters s st.rows))

/-- C2: for both paginated endpoints with `size ≥ 1`, `total_pages` is
`ceil(total_count / size)` — written `(total_count + size - 1) / size`
in natural division, which is `0` when `total_count = 0` — and any
`page > total_pages` returns empty `results` while `total_count` is the
same value every other page of the same filter reports. -/
theorem pagination_contract (st : Store) (s : SearchRequest) (sid : Option String)
    (page size : Nat) (hsize : 1 ≤ size) :
    (search_records st s page size).total_pages
        = ((search_records st s page size).total_count + size - 1) / size
    ∧ ((search_records st s page size).total_count = 0
        → (search_records st s page size).total_pages = 0)
    ∧ (page > (search_records st s page size).total_pages
        → (search_records st s page size).results = []
          ∧ ∀ page2, (search_records st s page2 size).total_count
              = (search_records st s page size).total_count)
    ∧ (get_pricing_feeds st page size sid).total_pages
        = ((get_pricing_feeds st page size sid).total_count + size - 1) / size
    ∧ ((get_pricing_feeds st page size sid).total_count = 0
        → (get_pricing_feeds st page size sid).total_pages = 0)
    ∧ (page > (get_pricing_feeds st page size sid).total_pages
        → (get_pricing_feeds st page size sid).results = []
          ∧ ∀ page2, (get_pricing_feeds st page2 size sid).total_count
              = (get_pricing_feeds st page size sid).total_count) := by
  obtain ⟨e1, e2, e3⟩ :=
    envelope_facts ((applyFilters s st.rows).insertionSort idLe) page size hsize
  obtain ⟨g1, g2, g3⟩ :=
    envelope_facts (((if truthy sid then
        st.rows.filter (fun r => r.store_id == sid.getD "") else st.rows)).insertionSort idLe)
      page size hsize
  exact ⟨e1, e2, fun hgt => ⟨e3 hgt, fun page2 => rfl⟩,
         g1, g2, fun hgt => ⟨g3 hgt, fun page2 => rfl⟩⟩

/-- Witness for C2: with one stored record, `size = 1`, and `page = 5`
(beyond `total_pages = 1`), both endpoints return the ceiling page count,
an empty page, and the unchanged count. -/
theorem pagination_contract_sample :
    (1 : Nat) ≤ 1
    ∧ ((search_records ⟨[PricingFeed.mk 1 "S1" "A" "a" 3 "2025-01-01"], 2⟩ ⟨none, none,
          none, none, none, none, none⟩ 5 1).total_pages
        = ((search_records ⟨[PricingFeed.mk 1 "S1" "A" "a" 3 "2025-01-01"], 2⟩ ⟨none, none,
          none, none, none, none, none⟩ 5 1).total_count + 1 - 1) / 1
      ∧ ((search_records ⟨[PricingFeed.mk 1 "S1" "A" "a" 3 "2025-01-01"], 2⟩ ⟨none, none,
          none, none, none, none, none⟩ 5 1).total_count = 0
          → (search_records ⟨[PricingFeed.mk 1 "S1" "A" "a" 3 "2025-01-01"], 2⟩ ⟨none, none,
          none, none, none, none, none⟩ 5 1).total_pages = 0)
      ∧ (5 > (search_records ⟨[PricingFeed.mk 1 "S1" "A" "a" 3 "2025-01-01"], 2⟩ ⟨none, none,
          none, none, none, none, none⟩ 5 1).total_pages
          → (search_records ⟨[PricingFeed.mk 1 "S1" "A" "a" 3 "2025-01-01"], 2⟩ ⟨none, none,
          none, none, none, none, none⟩ 5 1).results = []
            ∧ ∀ page2, (search_records ⟨[PricingFeed.mk 1 "S1" "A" "a" 3 "2025-01-01"], 2⟩
                ⟨none, none, none, none, none, none, none⟩ page2 1).total_count
              = (search_records ⟨[PricingFeed.mk 1 "S1" "A" "a" 3 "2025-01-01"], 2⟩ ⟨none, none,
          none, none, none, none, none⟩ 5 1).total_count)
      ∧ (get_pricing_feeds ⟨[PricingFeed.mk 1 "S1" "A" "a" 3 "2025-01-01"], 2⟩ 5 1
          none).total_pages
        = ((get_pricing_feeds ⟨[PricingFeed.mk 1 "S1" "A" "a" 3 "2025-01-01"], 2⟩ 5 1
          none).total_count + 1 - 1) / 1
      ∧ ((get_pricing_feeds ⟨[PricingFeed.mk 1 "S1" "A" "a" 3 "2025-01-01"], 2⟩ 5 1
          none).total_count = 0
          → (get_pricing_feeds ⟨[PricingFeed.mk 1 "S1" "A" "a" 3 "2025-01-01"], 2⟩ 5 1
          none).total_pages = 0)
      ∧ (5 > (get_pricing_feeds ⟨[PricingFeed.mk 1 "S1" "A" "a" 3 "2025-01-01"], 2⟩ 5 1
          none).total_pages
          → (get_pricing_feeds ⟨[PricingFeed.mk 1 "S1" "A" "a" 3 "2025-01-01"], 2⟩ 5 1
          none).results = []
            ∧ ∀ page2, (get_pricing_feeds ⟨[PricingFeed.mk 1 "S1" "A" "a" 3 "2025-01-01"], 2⟩
                page2 1 none).total_count
              = (get_pricing_feeds ⟨[PricingFeed.mk 1 "S1" "A" "a" 3 "2025-01-01"], 2⟩ 5 1
          none).total_count)) :=
  ⟨by decide,
   pagination_contract ⟨[PricingFeed.mk 1 "S1" "A" "a" 3 "2025-01-01"], 2⟩
     ⟨none, none, none, none, none, none, none⟩ none 5 1 (by decide)⟩

/-- C8: the body-based search endpoint invoked with only the `store_id`
filter returns the same paginated envelope (all fields, results in the
same order) as the query-param list endpoint invoked with the same
`store_id`, page, and size. -/
theorem search_agrees_with_list_endpoint (st : Store) (page size : Nat) (sid : Option String) :
    search_records st ⟨sid, none, none, none, none, none, none⟩ page size
      = get_pricing_feeds st page size sid := rfl

/-- C9: a filter field supplied as the empty string (`store_id`,
`search_sku`, or `search_product_name`) is treated exactly as if it had
been omitted, because the handler guards each of these filters with
Python truthiness. -/
theorem empty_string_filter_is_absent (st : Store) (s : SearchRequest) (page size : Nat) :
    search_records st { s with store_id := some "" } page size
        = search_records st { s with store_id := none } page size
    ∧ search_records st { s with search_sku := some "" } page size
        = search_records st { s with search_sku := none } page size
    ∧ search_records st { s with search_product_name := some "" } page size
        = search_records st { s with search_product_name := none } page size :=
  ⟨rfl, rfl, rfl⟩

/-- C10: a range upper bound supplied without its lower bound is silently
ignored: with `search_price_from` absent the value of `search_price_to`
adds no constraint, and with `search_date_from` falsy the value of
`search_date_to` adds no constraint. -/
theorem upper_bound_without_lower_is_ignored (st : Store) (s : SearchRequest) (page size : Nat) :
    (s.search_price_from = none →
      search_records st s page size
        = search_records st { s with search_price_to := none } page size)
    ∧ (truthy s.search_date_from = false →
      search_records st s page size
        = search_records st { s with search_date_to := none } page size) := by
  obtain ⟨sid, sku, pn, pf, pt, df, dt⟩ := s
  constructor
  · intro h
    subst h
    rfl
  · intro h
    simp only [search_records, applyFilters] at h ⊢
    rw [h]
    simp

/-- Witness for C10: with no lower bounds supplied, dropping the concrete
upper bounds `search_price_to = 5` and `search_date_to = "2024-12-31"`
leaves the response unchanged. -/
theorem upper_bound_without_lower_is_ignored_sample :
    (search_records ⟨[⟨1, "S1", "A", "a", 3, "2025-01-01"⟩], 2⟩
        ⟨none, none, none, none, some 5, none, some "2024-12-31"⟩ 1 10
      = search_records ⟨[⟨1, "S1", "A", "a", 3, "2025-01-01"⟩], 2⟩
        ⟨none, none, none, none, none, none, some "2024-12-31"⟩ 1 10)
    ∧ (search_records ⟨[⟨1, "S1", "A", "a", 3, "2025-01-01"⟩], 2⟩
        ⟨none, none, none, none, some 5, none, some "2024-12-31"⟩ 1 10
      = search_records ⟨[⟨1, "S1", "A", "a", 3, "2025-01-01"⟩], 2⟩
        ⟨none, none, none, none, some 5, none, none⟩ 1 10) :=
  ⟨(upper_bound_without_lower_is_ignored ⟨[⟨1, "S1", "A", "a", 3, "2025-01-01"⟩], 2⟩
      ⟨none, none, none, none, some 5, none, some "2024-12-31"⟩ 1 10).1 rfl,
   (upper_bound_without_lower_is_ignored ⟨[⟨1, "S1", "A", "a", 3, "2025-01-01"⟩], 2⟩
      ⟨none, none, none, none, some 5, none, some "2024-12-31"⟩ 1 10).2 rfl⟩

/-- C3: if any row of the CSV file has a `Price` cell that does not parse
as a number, the ingestion task commits zero rows: `float(...)` raises
before `db.commit()` is reached and the session is discarded, so the
store is unchanged and the task fails. -/
theorem csv_bad_price_commits_nothing (st : Store) (rows : List CsvRow)
    (h : ∃ row ∈ rows, parsePrice row.price = none) :
    process_csv_file st rows = (st, .error "could not convert string to float") := by
  unfold process_csv_file
  rw [parseRows_eq_none h]

/-- C4: a bulk-update body containing at least one id that names no
stored record makes the endpoint answer with a not-found error and leaves
the store unchanged — including the rows named by valid ids earlier in
the list, because `db.commit()` is only reached after every update found
its row. -/
theorem bulk_update_missing_id_rejects_batch (st : Store) (updates : List UpdateRequest)
    (h : ∃ u ∈ updates, ∀ r ∈ st.rows, r.id ≠ u.id) :
    (bulk_update_pricing_feeds st updates).1 = st
      ∧ ∃ e, (bulk_update_pricing_feeds st updates).2 = Except.error e := by
  have key : ∀ (us : List UpdateRequest) (rows : List PricingFeed),
      (∃ u ∈ us, ∀ r ∈ rows, r.id ≠ u.id) → ∃ e, bulkUpdateGo rows us = .error e := by
    intro us
    induction us with
    | nil => rintro rows ⟨u, hmem, -⟩; simp at hmem
    | cons u us ih =>
      rintro rows ⟨u', hmem, hmiss⟩
      rw [bulkUpdateGo]
      cases hm : mutateFirst rows u.id (fun r => applyUpdateReq r u) with
      | none => exact ⟨_, rfl⟩
      | some p =>
        obtain ⟨rows2, rec⟩ := p
        rcases List.mem_cons.mp hmem with rfl | hmem'
        · rw [mutateFirst_eq_none.mpr hmiss] at hm
          cases hm
        · have hids := mutateFirst_some_ids
            (fun r => (rfl : (applyUpdateReq r u).id = r.id)) hm
          have hmiss2 : ∀ r ∈ rows2, r.id ≠ u'.id := by
            intro r hr
            have : r.id ∈ rows.map (fun x => x.id) := by
              rw [← hids]; exact List.mem_map_of_mem _ hr
            obtain ⟨r0, hr0, hid0⟩ := List.mem_map.mp this
            rw [← hid0]
            exact hmiss r0 hr0
          exact ih rows2 ⟨u', hmem', hmiss2⟩
  obtain ⟨e, he⟩ := key updates st.rows h
  unfold bulk_update_pricing_feeds
  rw [he]
  exact ⟨rfl, e, rfl⟩

/-- Witness for C4: updating existing row 1 and then the missing id 99
returns a 404 and leaves the store exactly as it was. -/
theorem bulk_update_missing_id_rejects_batch_sample :
    (∃ u ∈ [UpdateRequest.mk 1 none none none (some 9) none,
            UpdateRequest.mk 99 none none none (some 9) none],
        ∀ r ∈ [PricingFeed.mk 1 "S1" "A" "a" 3 "2025-01-01"], r.id ≠ u.id)
    ∧ (bulk_update_pricing_feeds ⟨[PricingFeed.mk 1 "S1" "A" "a" 3 "2025-01-01"], 2⟩
        [UpdateRequest.mk 1 none none none (some 9) none,
         UpdateRequest.mk 99 none none none (some 9) none]).1
      = ⟨[PricingFeed.mk 1 "S1" "A" "a" 3 "2025-01-01"], 2⟩
    ∧ ∃ e, (bulk_update_pricing_feeds ⟨[PricingFeed.mk 1 "S1" "A" "a" 3 "2025-01-01"], 2⟩
        [UpdateRequest.mk 1 none none none (some 9) none,
         UpdateRequest.mk 99 none none none (some 9) none]).2 = Except.error e := by
  refine ⟨by decide, ?_⟩
  exact bulk_update_missing_id_rejects_batch
    ⟨[PricingFeed.mk 1 "S1" "A" "a" 3 "2025-01-01"], 2⟩
    [UpdateRequest.mk 1 none none none (some 9) none,
     UpdateRequest.mk 99 none none none (some 9) none]
    (by decide)

/-- C5: the claimed partial-update contract is intent the program cannot
exhibit.  `PricingFeedUpdate` declares its five `Optional` fields with no
defaults (src/models.py lines 100–113), so pydantic v2 requires all of
them and a PUT body supplying only `price` — omitting `store_id`, `sku`,
`product_name`, and `date` — is rejected with a 422 validation error
before the handler runs, leaving the stored record unchanged instead of
merging the supplied field.  The handler's own
`dict(exclude_unset=True)` merge and the sibling bulk-update class
`UpdateRequest`, whose fields do have `= None` defaults, show that
partial update was the intended behavior the claim describes. -/
theorem update_partial_body_rejected :
    update_pricing_feed ⟨[PricingFeed.mk 1 "S1" "A" "a" 3 "2025-01-01"], 2⟩ 1
        (PricingFeedUpdate.mk none none none (some 9) none)
      = (⟨[PricingFeed.mk 1 "S1" "A" "a" 3 "2025-01-01"], 2⟩, .error "Field required") := by
  rfl

/-- C6: creating a record from a valid request and fetching the id the
creation returned yields a record whose five submitted fields are exactly
the submitted values. -/
theorem create_then_get_roundtrip (st : Store) (feed : PricingFeedCreate)
    (hwf : ∀ r ∈ st.rows, r.id < st.nextId) (hdate : isValidDate feed.date = true) :
    ∃ st2 rec, create_pricing_feed st feed = (st2, .ok rec)
      ∧ get_pricing_feed st2 rec.id = some rec
      ∧ rec.store_id = feed.store_id ∧ rec.sku = feed.sku
      ∧ rec.product_name = feed.product_name ∧ rec.price = feed.price
      ∧ rec.date = feed.date := by
  refine ⟨{ rows := st.rows ++
              [{ id := st.nextId, store_id := feed.store_id, sku := feed.sku,
                 product_name := feed.product_name, price := feed.price,
                 date := feed.date }], nextId := st.nextId + 1 },
          { id := st.nextId, store_id := feed.store_id, sku := feed.sku,
            product_name := feed.product_name, price := feed.price,
            date := feed.date }, ?_, ?_, rfl, rfl, rfl, rfl, rfl⟩
  · unfold create_pricing_feed
    rw [if_pos (by simpa using hdate)]
  · show (st.rows ++
        [({ id := st.nextId, store_id := feed.store_id, sku := feed.sku,
            product_name := feed.product_name, price := feed.price,
            date := feed.date } : PricingFeed)]).find? _ = _
    rw [List.find?_append]
    have hnone : st.rows.find? (fun x => x.id == st.nextId) = none := by
      rw [List.find?_eq_none]
      intro a ha
      simpa using Nat.ne_of_lt (hwf a ha)
    rw [hnone]
    simp

/-- Witness for C6: creating `("S1", "SKU1", "Gadget", 12.5,
"2024-07-05")` in a store holding one record and reading back the
returned id reproduces all five fields. -/
theorem create_then_get_roundtrip_sample :
    (∀ r ∈ [PricingFeed.mk 1 "S1" "A" "a" 3 "2025-01-01"], r.id < 2)
    ∧ isValidDate "2024-07-05" = true
    ∧ ∃ st2 rec, create_pricing_feed ⟨[PricingFeed.mk 1 "S1" "A" "a" 3 "2025-01-01"], 2⟩
          (PricingFeedCreate.mk "S1" "SKU1" "Gadget" (25/2) "2024-07-05") = (st2, .ok rec)
      ∧ get_pricing_feed st2 rec.id = some rec
      ∧ rec.store_id = "S1" ∧ rec.sku = "SKU1"
      ∧ rec.product_name = "Gadget" ∧ rec.price = 25/2
      ∧ rec.date = "2024-07-05" :=
  ⟨by decide, by decide,
   create_then_get_roundtrip ⟨[PricingFeed.mk 1 "S1" "A" "a" 3 "2025-01-01"], 2⟩
     (PricingFeedCreate.mk "S1" "SKU1" "Gadget" (25/2) "2024-07-05")
     (by decide) (by decide)⟩

/-- C7: the ingestion worker maps every `Date` cell into the store
verbatim with no validation (any string, however malformed, is committed
as the record's date as long as all prices parse), whereas both the
create and the update API paths reject a date that does not parse as
`YYYY-MM-DD` before any mutation. -/
theorem ingestion_skips_date_validation :
    (∀ (st : Store) (rows : List CsvRow),
        (∀ row ∈ rows, (parsePrice row.price).isSome) →
        (process_csv_file st rows).1.rows.map (fun r => r.date)
          = st.rows.map (fun r => r.date) ++ rows.map (fun r => r.date))
    ∧ (∀ (st : Store) (feed : PricingFeedCreate), isValidDate feed.date = false →
        create_pricing_feed st feed
          = (st, .error "Invalid date format. Expected YYYY-MM-DD"))
    ∧ (∀ (st : Store) (fid : Nat) (u : PricingFeedUpdate) (d : String),
        u.date = some d → isValidDate d = false →
        update_pricing_feed st fid u
          = (st, .error "Invalid date format. Expected YYYY-MM-DD")) := by
  refine ⟨?_, ?_, ?_⟩
  · intro st rows h
    obtain ⟨news, hn⟩ := parseRows_of_isSome h
    unfold process_csv_file
    rw [hn]
    simp [commitNew_dates, parseRows_dates hn]
  · intro st feed h
    unfold create_pricing_feed
    rw [if_neg (by simp [h])]
  · intro st fid u d hd h
    unfold update_pricing_feed
    rw [if_neg (by simp [validUpdateDate, hd, h])]

/-- Witness for C7: the worker commits the malformed date `"not-a-date"`
as-is, while create and update both reject it with no change to the
store. -/
theorem ingestion_skips_date_validation_sample :
    ((process_csv_file ⟨[], 1⟩ [CsvRow.mk "S1" "K" "P" "2.5" "not-a-date"]).1.rows.map
        (fun r => r.date)
      = (Store.mk [] 1).rows.map (fun r => r.date)
        ++ [CsvRow.mk "S1" "K" "P" "2.5" "not-a-date"].map (fun r => r.date))
    ∧ create_pricing_feed ⟨[], 1⟩ (PricingFeedCreate.mk "S1" "K" "P" 2 "not-a-date")
        = (⟨[], 1⟩, .error "Invalid date format. Expected YYYY-MM-DD")
    ∧ update_pricing_feed ⟨[], 1⟩ 1 (PricingFeedUpdate.mk none none none none (some "not-a-date"))
        = (⟨[], 1⟩, .error "Invalid date format. Expected YYYY-MM-DD") :=
  ⟨ingestion_skips_date_validation.1 ⟨[], 1⟩ [CsvRow.mk "S1" "K" "P" "2.5" "not-a-date"]
     (by decide),
   ingestion_skips_date_validation.2.1 ⟨[], 1⟩ (PricingFeedCreate.mk "S1" "K" "P" 2 "not-a-date")
     (by decide),
   ingestion_skips_date_validation.2.2 ⟨[], 1⟩ 1
     (PricingFeedUpdate.mk none none none none (some "not-a-date")) "not-a-date" rfl (by decide)⟩

/-- Witness for C3: one concrete file whose second row has the
non-numeric price `"abc"` is committed nowhere. -/
theorem csv_bad_price_commits_nothing_sample :
    (∃ row ∈ [CsvRow.mk "S1" "SKU1" "Gadget" "12.5" "2024-07-05",
              CsvRow.mk "S1" "SKU2" "Widget" "abc" "2024-07-06"],
        parsePrice row.price = none)
    ∧ process_csv_file ⟨[], 1⟩
        [CsvRow.mk "S1" "SKU1" "Gadget" "12.5" "2024-07-05",
         CsvRow.mk "S1" "SKU2" "Widget" "abc" "2024-07-06"]
      = (⟨[], 1⟩, .error "could not convert string to float") :=
  ⟨by decide, csv_bad_price_commits_nothing ⟨[], 1⟩ _ (by decide)⟩

end RetailStore
